import Mathlib

/-!
# Verification of the session registry and tree-operation engine
# of the `ftp-mcp-server` repository (`ftp_client_logic.py`)

This file gives a shallow embedding of the session-lifecycle and
recursive-filesystem logic of `src/ftp_client_logic.py` and settles the
specification claims against it.

Modelling decisions, shared by all definitions below:

* The remote server is modelled deterministically: the state of a
  connection is its liveness flag, its transfer mode, its current working
  directory and the remote filesystem tree it sees.  A primitive FTP
  command succeeds or fails exactly as a compliant server would answer it
  given that state (e.g. `CWD` succeeds iff the target resolves to a
  directory, `RMD` fails on a non-empty directory, `MKD` answers with a
  `550` permanent error both when the target already exists and when its
  parent is missing).
* Remote paths, which the Python code manipulates as slash-separated
  strings and only ever extends one component at a time
  (`f"{path}/{name}"`), are modelled as lists of components, taken as
  absolute.  `f"{path}/{name}"` becomes `path ++ [name]`.
* Python exceptions become `Except` values.  `ftplib.error_perm` (a 5xx
  server reply) is `Err.permError`; transport-level failures are
  `Err.connError`; exceptions raised by the repository's own code
  (`ToolError`) are `Err.toolError`.  A `try/except` block becomes a
  `match` on the `Except` value.
* The session registry `ftp_sessions : Dict[str, FTP]` is an association
  list with Python-`dict` lookup/assign/del semantics.  The Python `FTP`
  objects are mutable and aliased by the registry; the registry-level
  functions (`_check_session`, `ftp_connect`, `ftp_disconnect`) are
  modelled on the registry, while the per-connection operations are
  modelled on the resolved connection value, with the liveness probe of
  `_check_session` retained at their entry (and, for the recursive tree
  operations, at every recursion level, as in the source, which calls
  `_check_session(session_id)` again at each level).
-/

/-- A remote filesystem tree: a file with byte content (modelled as a
string), or a directory with a list of named entries. -/
inductive FsNode where
  | file (content : String)
  | dir (entries : List (String × FsNode))

/-- Look up a name in a directory's entry list. -/
def lookupEntry : List (String × FsNode) → String → Option FsNode
  | [], _ => none
  | (n, t) :: rest, name => if n = name then some t else lookupEntry rest name

/-- Remove the entry of the given name from a directory's entry list. -/
def eraseEntry : List (String × FsNode) → String → List (String × FsNode)
  | [], _ => []
  | (n, t) :: rest, name =>
      if n = name then rest else (n, t) :: eraseEntry rest name

/-- Replace the entry of the given name in a directory's entry list. -/
def updateEntry : List (String × FsNode) → String → FsNode → List (String × FsNode)
  | [], _, _ => []
  | (n, t) :: rest, name, t2 =>
      if n = name then (n, t2) :: rest else (n, t) :: updateEntry rest name t2

/-- A remote path, as a list of components; the Python code's
`f"{path}/{name}"` is `path ++ [name]`. -/
abbrev RPath := List String

/-- Render a path the way the Python code prints it in messages. -/
def pathStr (p : RPath) : String := String.intercalate "/" p

/-- Resolve a path in a filesystem tree. -/
def resolve (t : FsNode) : RPath → Option FsNode
  | [] => some t
  | n :: p =>
      match t with
      | .file _ => none
      | .dir es =>
          match lookupEntry es n with
          | none => none
          | some t2 => resolve t2 p

/-- Remove the node at a (non-root, existing) path; `none` when the path
does not name a removable entry. -/
def removeAt (t : FsNode) : RPath → Option FsNode
  | [] => none
  | n :: p =>
      match t with
      | .file _ => none
      | .dir es =>
          match p with
          | [] =>
              match lookupEntry es n with
              | none => none
              | some _ => some (.dir (eraseEntry es n))
          | _ :: _ =>
              match lookupEntry es n with
              | none => none
              | some t2 =>
                  match removeAt t2 p with
                  | none => none
                  | some t3 => some (.dir (updateEntry es n t3))

/-- Write file content at a path: the parent must be an existing
directory and the target must not be an existing directory. -/
def writeAt (t : FsNode) : RPath → String → Option FsNode
  | [], _ => none
  | n :: p, content =>
      match t with
      | .file _ => none
      | .dir es =>
          match p with
          | [] =>
              match lookupEntry es n with
              | some (.dir _) => none
              | some (.file _) => some (.dir (updateEntry es n (.file content)))
              | none => some (.dir (es ++ [(n, .file content)]))
          | _ :: _ =>
              match lookupEntry es n with
              | none => none
              | some t2 =>
                  match writeAt t2 p content with
                  | none => none
                  | some t3 => some (.dir (updateEntry es n t3))

/-- Create an empty directory at a path: the parent must be an existing
directory and the target must not already exist. -/
def mkdirAt (t : FsNode) : RPath → Option FsNode
  | [] => none
  | n :: p =>
      match t with
      | .file _ => none
      | .dir es =>
          match p with
          | [] =>
              match lookupEntry es n with
              | some _ => none
              | none => some (.dir (es ++ [(n, .dir [])]))
          | _ :: _ =>
              match lookupEntry es n with
              | none => none
              | some t2 =>
                  match mkdirAt t2 p with
                  | none => none
                  | some t3 => some (.dir (updateEntry es n t3))

/-- Does the path resolve to a directory? -/
def isDirAt (t : FsNode) (p : RPath) : Bool :=
  match resolve t p with
  | some (.dir _) => true
  | _ => false

/-- Does the path resolve to a file? -/
def isFileAt (t : FsNode) (p : RPath) : Bool :=
  match resolve t p with
  | some (.file _) => true
  | _ => false

/-- The FTP transfer mode: `TYPE A` (ASCII) or `TYPE I` (binary). -/
inductive TransferMode where
  | ascii
  | binary
deriving DecidableEq, Repr

/-- The state of one `ftplib.FTP` connection, as seen through the
primitives the repository uses: liveness, transfer mode, current working
directory, the remote filesystem, the server's greeting text and its
acknowledgement text for the `STOU` command. -/
structure Conn where
  alive : Bool
  mode : TransferMode
  cwd : RPath
  fs : FsNode
  welcome : String
  stouAck : String

/-- Failure values: `toolError` is the repository's own `ToolError`;
`permError` is `ftplib.error_perm` (a 5xx server reply, message
included); `connError` is a transport-level failure. -/
inductive Err where
  | toolError (msg : String)
  | permError (msg : String)
  | connError (msg : String)
deriving DecidableEq, Repr

/-- The message text of an exception, as `str(e)` would render it. -/
def Err.msg : Err → String
  | .toolError m => m
  | .permError m => m
  | .connError m => m

/-- Is the failure an `ftplib.error_perm`? (`except error_perm` matches
exactly these.) -/
def Err.isPerm : Err → Bool
  | .permError _ => true
  | _ => false

/-- The transport failure raised by any command on a dead connection. -/
def deadConnErr : Err := .connError "connection closed"

/-- `ftp.pwd()`: the current working directory. -/
def pwdOp (c : Conn) : Except Err RPath :=
  if c.alive then .ok c.cwd else .error deadConnErr

/-- `ftp.cwd(path)`: succeeds iff the target resolves to a directory. -/
def cwdOp (c : Conn) (p : RPath) : Except Err Conn :=
  if c.alive then
    if isDirAt c.fs p then .ok { c with cwd := p }
    else .error (.permError ("550 " ++ pathStr p ++ ": No such file or directory."))
  else .error deadConnErr

/-- `ftp.voidcmd('NOOP')`: the liveness probe. -/
def noopOp (c : Conn) : Except Err Unit :=
  if c.alive then .ok () else .error deadConnErr

/-- `ftp.voidcmd('TYPE A')` / `ftp.voidcmd('TYPE I')`: set the transfer
mode. -/
def typeOp (c : Conn) (m : TransferMode) : Except Err Conn :=
  if c.alive then .ok { c with mode := m } else .error deadConnErr

/-- `ftp.size(path)`: the size of a file; a `550` reply otherwise. -/
def sizeOp (c : Conn) (p : RPath) : Except Err Nat :=
  if c.alive then
    match resolve c.fs p with
    | some (.file content) => .ok content.length
    | _ => .error (.permError ("550 " ++ pathStr p ++ ": No such file."))
  else .error deadConnErr

/-- `ftp.delete(path)` (`DELE`): succeeds iff the target is a file. -/
def deleteOp (c : Conn) (p : RPath) : Except Err Conn :=
  if c.alive then
    match resolve c.fs p with
    | some (.file _) =>
        match removeAt c.fs p with
        | some fs2 => .ok { c with fs := fs2 }
        | none => .error (.permError ("550 " ++ pathStr p ++ ": Cannot remove."))
    | some (.dir _) => .error (.permError ("550 " ++ pathStr p ++ ": Is a directory."))
    | none => .error (.permError ("550 " ++ pathStr p ++ ": No such file or directory."))
  else .error deadConnErr

/-- `ftp.rmd(path)` (`RMD`): succeeds iff the target is an *empty*
directory (a compliant server rejects `RMD` on a non-empty one). -/
def rmdOp (c : Conn) (p : RPath) : Except Err Conn :=
  if c.alive then
    match resolve c.fs p with
    | some (.dir []) =>
        match removeAt c.fs p with
        | some fs2 => .ok { c with fs := fs2 }
        | none => .error (.permError ("550 " ++ pathStr p ++ ": Cannot remove."))
    | some (.dir (_ :: _)) => .error (.permError ("550 " ++ pathStr p ++ ": Directory not empty."))
    | _ => .error (.permError ("550 " ++ pathStr p ++ ": No such directory."))
  else .error deadConnErr

/-- `ftp.mkd(path)` (`MKD`): fails with a `550` permanent error both when
the target already exists and when the parent directory is missing (RFC
959's "requested action not taken; file unavailable" class). -/
def mkdOp (c : Conn) (p : RPath) : Except Err Conn :=
  if c.alive then
    match resolve c.fs p with
    | some _ => .error (.permError ("550 " ++ pathStr p ++ ": File exists."))
    | none =>
        match mkdirAt c.fs p with
        | some fs2 => .ok { c with fs := fs2 }
        | none => .error (.permError ("550 " ++ pathStr p ++ ": No such file or directory."))
  else .error deadConnErr

/-- `ftp.retrbinary(f"RETR {path}", ...)`: read a file's content. -/
def retrOp (c : Conn) (p : RPath) : Except Err String :=
  if c.alive then
    match resolve c.fs p with
    | some (.file content) => .ok content
    | _ => .error (.permError ("550 " ++ pathStr p ++ ": No such file."))
  else .error deadConnErr

/-- `ftp.storbinary(f"STOR {path}", ...)`: write a file at the path. -/
def storOp (c : Conn) (p : RPath) (content : String) : Except Err Conn :=
  if c.alive then
    match writeAt c.fs p content with
    | some fs2 => .ok { c with fs := fs2 }
    | none => .error (.permError ("550 " ++ pathStr p ++ ": Cannot store."))
  else .error deadConnErr

/-- `ftp.quit()`: succeeds on a live connection, fails on a dead one. -/
def quitOp (c : Conn) : Except Err Unit :=
  if c.alive then .ok () else .error deadConnErr

/-- The machine-readable facts MLSD reports for an entry. -/
def mlsdFacts : FsNode → List (String × String)
  | .file _ => [("type", "file")]
  | .dir _ => [("type", "dir")]

/-- `ftp.mlsd(path)` (`MLSD`): the machine-readable listing of a
directory, including the `.` and `..` pseudo-entries the server
reports. -/
def mlsdOp (c : Conn) (p : RPath) : Except Err (List (String × List (String × String))) :=
  if c.alive then
    match resolve c.fs p with
    | some (.dir es) =>
        .ok ((".", [("type", "cdir")]) :: ("..", [("type", "pdir")]) ::
          es.map (fun e => (e.1, mlsdFacts e.2)))
    | _ => .error (.permError ("550 " ++ pathStr p ++ ": Not a directory."))
  else .error deadConnErr

/-! ## The session registry (`ftp_sessions`) -/

/-- The registry: `ftp_sessions : Dict[str, FTP]`, with `dict`
lookup/assign/del semantics. -/
abbrev Registry := List (String × Conn)

/-- `ftp_sessions.get(session_id)`. -/
def lookupReg : Registry → String → Option Conn
  | [], _ => none
  | (sid, c) :: rest, sid2 => if sid = sid2 then some c else lookupReg rest sid2

/-- `del ftp_sessions[session_id]`. -/
def eraseReg : Registry → String → Registry
  | [], _ => []
  | (sid2, c) :: rest, sid =>
      if sid2 = sid then eraseReg rest sid else (sid2, c) :: eraseReg rest sid

/-- `ftp_sessions[session_id] = ftp`. -/
def insertReg (reg : Registry) (sid : String) (c : Conn) : Registry :=
  (sid, c) :: eraseReg reg sid

/-- The `ToolError` message for an unknown session identifier. -/
def notFoundMsg (sid : String) : String :=
  "Session with ID '" ++ sid ++ "' not found. Please connect first."

/-- The `ToolError` message for a session whose liveness probe failed. -/
def timeoutMsg (sid : String) : String :=
  "Session with ID '" ++ sid ++ "' timed out or was disconnected. Please reconnect."

/-- `_check_session(session_id)`: look the session up; if absent, fail
with the not-found `ToolError`; otherwise probe liveness with `NOOP`,
and on probe failure delete the entry and fail with the timed-out
`ToolError`.  Returns the resolved connection and the (possibly
updated) registry. -/
def _check_session (reg : Registry) (sid : String) : Except Err Conn × Registry :=
  match lookupReg reg sid with
  | none => (.error (.toolError (notFoundMsg sid)), reg)
  | some ftp =>
      match noopOp ftp with
      | .ok _ => (.ok ftp, reg)
      | .error _ => (.error (.toolError (timeoutMsg sid)), eraseReg reg sid)

/-- `ftp_connect(host, username, password, port)`.  The `uuid.uuid4()`
identifier is modelled as the input `sid` (fresh with overwhelming
probability); `FTP(); ftp.connect(host, port); ftp.login(...)` is
modelled as the input `attempt`, the outcome of establishing and
authenticating the transport.  On success the new connection is stored
under the identifier; on failure nothing is stored and a `ToolError`
wrapping the cause is raised. -/
def ftp_connect (reg : Registry) (sid : String) (attempt : Except String Conn) :
    Except Err String × Registry :=
  match attempt with
  | .error e =>
      (.error (.toolError ("Failed to connect to FTP server: " ++ e)), reg)
  | .ok ftp =>
      (.ok ("Successfully connected to the FTP server. Your session ID is: " ++ sid ++
        ".\n Server's Welcome message: " ++ ftp.welcome),
        insertReg reg sid ftp)

/-- `ftp_disconnect(session_id)`: unknown identifiers are a no-op
success; otherwise `ftp.quit()` then delete the entry, raising a
`ToolError` (and keeping the entry) if `quit` fails. -/
def ftp_disconnect (reg : Registry) (sid : String) : Except Err String × Registry :=
  match lookupReg reg sid with
  | none =>
      (.ok ("Session with ID '" ++ sid ++ "' was not found or already disconnected."), reg)
  | some ftp =>
      match quitOp ftp with
      | .ok _ =>
          (.ok ("Session '" ++ sid ++ "' disconnected successfully."), eraseReg reg sid)
      | .error e =>
          (.error (.toolError ("Error while disconnecting session '" ++ sid ++ "': " ++ e.msg)),
            reg)

/-! ## Connection-level operations

The remaining operations act on the connection resolved by
`_check_session`.  They are modelled on the connection value; the
`NOOP` liveness probe that `_check_session` performs is retained at
their entry (and at each level of the recursive tree operations, which
call `_check_session(session_id)` again at every level). -/

/-- `_is_dir(ftp, remote_path)`: record the working directory, try to
change into the path, change back, and report success; any failure
reports `False`.  Note the connection is returned in whatever state the
last successful command left it, exactly as the mutable `ftp` object is
left in the source. -/
def _is_dir (c : Conn) (remote_path : RPath) : Bool × Conn :=
  match pwdOp c with
  | .error _ => (false, c)
  | .ok original_cwd =>
      match cwdOp c remote_path with
      | .error _ => (false, c)
      | .ok c1 =>
          match cwdOp c1 original_cwd with
          | .error _ => (false, c1)
          | .ok c2 => (true, c2)

/-- The three listing methods of `_ftp_list_by_method`. -/
inductive ListMethod where
  | nlst
  | list
  | mlsd
deriving DecidableEq, Repr

/-- The wire name of a listing method, as used in error messages. -/
def ListMethod.wire : ListMethod → String
  | .nlst => "NLST"
  | .list => "LIST"
  | .mlsd => "MLSD"

/-- The union of the three listing result shapes. -/
inductive ListingResult where
  | names (xs : List String)
  | lines (xs : List String)
  | entries (xs : List (String × List (String × String)))
deriving DecidableEq, Repr

/-- One raw `LIST` line for an entry (a model of the server's
human-readable long-listing format). -/
def listLine (n : String) (t : FsNode) : String :=
  (match t with
   | .dir _ => "d"
   | .file _ => "-") ++ " " ++ n

/-- `ftp.nlst()`: the names in the current working directory. -/
def nlstOp (c : Conn) : Except Err (List String) :=
  if c.alive then
    match resolve c.fs c.cwd with
    | some (.dir es) => .ok (es.map Prod.fst)
    | _ => .error (.permError ("550 " ++ pathStr c.cwd ++ ": Not a directory."))
  else .error deadConnErr

/-- `ftp.retrlines("LIST", ...)`: the raw lines for the current working
directory. -/
def listOp (c : Conn) : Except Err (List String) :=
  if c.alive then
    match resolve c.fs c.cwd with
    | some (.dir es) => .ok (es.map (fun e => listLine e.1 e.2))
    | _ => .error (.permError ("550 " ++ pathStr c.cwd ++ ": Not a directory."))
  else .error deadConnErr

/-- The `ToolError` wrapping of a listing failure. -/
def listErrWrap (m : ListMethod) (e : Err) : Err :=
  .toolError ("Error listing directory (" ++ m.wire ++ "): " ++ e.msg)

/-- `_ftp_list_by_method(list_method, session_id, directory)`: record
the working directory, change into the requested directory, produce the
method's listing of it, and change back before returning. -/
def _ftp_list_by_method (list_method : ListMethod) (c : Conn) (directory : RPath) :
    Except Err ListingResult × Conn :=
  match noopOp c with
  | .error e => (.error e, c)
  | .ok _ =>
      match pwdOp c with
      | .error e => (.error (listErrWrap list_method e), c)
      | .ok original_cwd =>
          match cwdOp c directory with
          | .error e => (.error (listErrWrap list_method e), c)
          | .ok c1 =>
              match (match list_method with
                     | .nlst => (nlstOp c1).map ListingResult.names
                     | .list => (listOp c1).map ListingResult.lines
                     | .mlsd => (mlsdOp c1 c1.cwd).map ListingResult.entries) with
              | .error e => (.error (listErrWrap list_method e), c1)
              | .ok files_output =>
                  match cwdOp c1 original_cwd with
                  | .error e => (.error (listErrWrap list_method e), c1)
                  | .ok c2 => (.ok files_output, c2)

/-- `ftp_nlst(session_id, directory)`. -/
def ftp_nlst (c : Conn) (directory : RPath) : Except Err ListingResult × Conn :=
  _ftp_list_by_method .nlst c directory

/-- `ftp_list(session_id, directory)`. -/
def ftp_list (c : Conn) (directory : RPath) : Except Err ListingResult × Conn :=
  _ftp_list_by_method .list c directory

/-- `ftp_mlsd(session_id, directory)`. -/
def ftp_mlsd (c : Conn) (directory : RPath) : Except Err ListingResult × Conn :=
  _ftp_list_by_method .mlsd c directory

/-- `ftp_get_file_size(session_id, file_path)`: force ASCII mode, switch
to binary for the `SIZE` query, and set ASCII mode again after a
successful query.  (The source has no `finally`: on a failure the mode
is left as the last successful `TYPE` command set it.)  The source's
message spelling, including the `recieve` typo, is kept. -/
def ftp_get_file_size (c : Conn) (file_path : RPath) : Except Err String × Conn :=
  match noopOp c with
  | .error e => (.error e, c)
  | .ok _ =>
      match typeOp c .ascii with
      | .error e => (.error (.toolError ("Failed to recieve file size: " ++ e.msg)), c)
      | .ok c1 =>
          match typeOp c1 .binary with
          | .error e => (.error (.toolError ("Failed to recieve file size: " ++ e.msg)), c1)
          | .ok c2 =>
              match sizeOp c2 file_path with
              | .error e => (.error (.toolError ("Failed to recieve file size: " ++ e.msg)), c2)
              | .ok size =>
                  match typeOp c2 .ascii with
                  | .error e => (.error (.toolError ("Failed to recieve file size: " ++ e.msg)), c2)
                  | .ok c3 => (.ok ("File size: " ++ toString size ++ " bytes."), c3)

/-! ## Unique-name store (`STOU`) -/

/-- Python ASCII whitespace, as `str.strip()` removes it. -/
def pyWhitespace (ch : Char) : Bool :=
  ch = ' ' || ch = '\t' || ch = '\n' || ch = '\r' || ch = '\x0b' || ch = '\x0c'

/-- `str.strip()`: remove whitespace from both ends. -/
def pyStrip (s : String) : String :=
  ⟨((s.data.dropWhile pyWhitespace).reverse.dropWhile pyWhitespace).reverse⟩

/-- Does `needle` occur as a substring?  (Python's `needle in s`.) -/
def strContainsAux (needle : List Char) : List Char → Bool
  | [] => needle.isEmpty
  | ch :: rest => needle.isPrefixOf (ch :: rest) || strContainsAux needle rest

/-- `needle in s` for strings. -/
def strContains (s needle : String) : Bool := strContainsAux needle.data s.data

/-- `re.search(r'FILE: (.+)', s)`: the leftmost position at which the
literal `"FILE: "` matches and is followed by at least one non-newline
character; the group is the greedy run of non-newline characters after
the marker.  Returns the matched group. -/
def stouFind : List Char → Option (List Char)
  | [] => none
  | ch :: rest =>
      if "FILE: ".data.isPrefixOf (ch :: rest) &&
          (match rest.drop 5 with
           | [] => false
           | c2 :: _ => c2 != '\n') then
        some ((rest.drop 5).takeWhile (fun c2 => c2 != '\n'))
      else stouFind rest

/-- `match.group(1).strip()` of the `STOU` acknowledgement parse, or
`none` when the regex does not match. -/
def stouExtract (s : String) : Option String :=
  (stouFind s.data).map (fun g => pyStrip ⟨g⟩)

/-- A local file referenced by an upload: its path string and its
content, `none` when `Path(local_filepath).exists()` is false. -/
structure LocalFile where
  path : String
  content : Option String

/-- `Path(local_filepath).name`: the final path component. -/
def pyBasename (s : String) : String := (s.splitOn "/").getLastD s

/-- `_ftp_store_methods_helper(session_id, is_unique_store,
local_filepath, remote_filename)`.  For the unique store, the server's
acknowledgement to `STOU` is the connection's `stouAck` text; the
assigned name is extracted from it via the `FILE: (.+)` pattern, and a
parse failure raises the `ToolError` that the outer handler wraps. -/
def _ftp_store_methods_helper (c : Conn) (is_unique_store : Bool) (localFile : LocalFile)
    (remote_filename : Option String) : Except Err String × Conn :=
  match noopOp c with
  | .error e => (.error e, c)
  | .ok _ =>
      match localFile.content with
      | none => (.error (.toolError ("Local file not found: " ++ localFile.path)), c)
      | some content =>
          if is_unique_store then
            let server_response := c.stouAck
            match stouExtract server_response with
            | none =>
                (.error (.toolError ("Error uploading file: " ++
                  "Failed to parse unique filename from STOU response: " ++ server_response)), c)
            | some unique_filename =>
                match storOp c (c.cwd ++ [unique_filename]) content with
                | .error e => (.error (.toolError ("Error uploading file: " ++ e.msg)), c)
                | .ok c2 =>
                    (.ok ("File uploaded successfully with unique name: " ++ unique_filename), c2)
          else
            let rname := remote_filename.getD (pyBasename localFile.path)
            match storOp c (c.cwd ++ [rname]) content with
            | .error e => (.error (.toolError ("Error uploading file: " ++ e.msg)), c)
            | .ok c2 => (.ok ("File '" ++ localFile.path ++ "' uploaded successfully."), c2)

/-- `ftp_store_file(session_id, local_filepath, remote_filename)`. -/
def ftp_store_file (c : Conn) (localFile : LocalFile) (remote_filename : Option String) :
    Except Err String × Conn :=
  _ftp_store_methods_helper c false localFile remote_filename

/-- `ftp_store_file_unique(session_id, local_filepath)`. -/
def ftp_store_file_unique (c : Conn) (localFile : LocalFile) : Except Err String × Conn :=
  _ftp_store_methods_helper c true localFile none

/-! ## Recursive delete and copy

The interpreters below additionally return the trace of the mutating
primitive commands they issue (recorded at the moment the command is
attempted), which is what the depth-first claims are about.  General
recursion over the mutable remote state is expressed with a fuel
parameter; exhausting the fuel yields an error that never occurs for
fuel at least the size of the subtree being processed. -/

/-- A mutating primitive command, as issued on the wire. -/
inductive Op where
  | dele (p : RPath)
  | rmd (p : RPath)
  | mkd (p : RPath)
  | retr (p : RPath)
  | stor (p : RPath)
deriving DecidableEq, Repr

/-- The path a primitive command operates on. -/
def Op.path : Op → RPath
  | .dele p => p
  | .rmd p => p
  | .mkd p => p
  | .retr p => p
  | .stor p => p

/-- The `ToolError` wrapping of a failure inside `ftp_delete_recursive`
(also applied, at each level, to failures propagating out of the
recursive child calls, as the source's `except Exception` does). -/
def wrapDel (p : RPath) (e : Err) : Err :=
  .toolError ("Error deleting '" ++ pathStr p ++ "': " ++ e.msg)

/-- The `for name, _ in ftp.mlsd(...)` loop of `ftp_delete_recursive`:
fold the recursive call (passed in as `recur`) over the listed names in
order, threading the connection and concatenating the traces. -/
def deleteChildren (recur : Conn → RPath → Except Err (Conn × String) × List Op)
    (c : Conn) (p : RPath) : List String → Except Err Conn × List Op
  | [] => (.ok c, [])
  | n :: ns =>
      match recur c (p ++ [n]) with
      | (.error e, tr) => (.error e, tr)
      | (.ok (c2, _), tr) =>
          match deleteChildren recur c2 p ns with
          | (r, tr2) => (r, tr ++ tr2)

/-- `ftp_delete_recursive(session_id, remote_path)`: if the path is a
directory, list it with `MLSD`, recurse into every entry other than `.`
and `..` at `remote_path/name`, then remove the (now empty) directory;
otherwise delete the path as a single file. -/
def ftp_delete_recursive : Nat → Conn → RPath → Except Err (Conn × String) × List Op
  | 0, _, _ => (.error (.toolError "recursion limit exceeded"), [])
  | fuel + 1, c, remote_path =>
      match noopOp c with
      | .error e => (.error e, [])
      | .ok _ =>
          match _is_dir c remote_path with
          | (true, c1) =>
              match mlsdOp c1 remote_path with
              | .error e => (.error (wrapDel remote_path e), [])
              | .ok listing =>
                  match deleteChildren (ftp_delete_recursive fuel) c1 remote_path
                      ((listing.map Prod.fst).filter (fun n => n != "." && n != "..")) with
                  | (.error e, tr) => (.error (wrapDel remote_path e), tr)
                  | (.ok c2, tr) =>
                      match rmdOp c2 remote_path with
                      | .error e => (.error (wrapDel remote_path e), tr ++ [Op.rmd remote_path])
                      | .ok c3 =>
                          (.ok (c3, "Successfully deleted '" ++ pathStr remote_path ++ "'."),
                            tr ++ [Op.rmd remote_path])
          | (false, c1) =>
              match deleteOp c1 remote_path with
              | .error e => (.error (wrapDel remote_path e), [Op.dele remote_path])
              | .ok c2 =>
                  (.ok (c2, "Successfully deleted '" ++ pathStr remote_path ++ "'."),
                    [Op.dele remote_path])

/-- The `ToolError` wrapping of a failure inside `ftp_copy_recursive`. -/
def wrapCopy (src : RPath) (e : Err) : Err :=
  .toolError ("Error copying '" ++ pathStr src ++ "': " ++ e.msg)

/-- The `except error_perm as e:` clause guarding `ftp.mkd` in
`ftp_copy_recursive`: a permanent error whose text contains `"550"` is
swallowed (the directory may already exist) and the copy continues with
the connection as it was; any other permanent error raises the
couldn't-create `ToolError`, and a non-`error_perm` failure is not
caught here at all — both propagate to the outer handler. -/
def copyMkdHandler (c : Conn) (src : RPath) (e : Err) : Except Err Conn :=
  match e with
  | .permError m =>
      if strContains m "550" then .ok c
      else .error (.toolError ("Error copying '" ++ pathStr src ++
        "', couldn't create the new directory: " ++ e.msg))
  | _ => .error e

/-- The `for name, _ in ftp.mlsd(...)` loop of `ftp_copy_recursive`:
fold the recursive call (passed in as `recur`) over the listed names in
order, mapping `src/name` to `dst/name`. -/
def copyChildren (recur : Conn → RPath → RPath → Except Err (Conn × String) × List Op)
    (c : Conn) (src dst : RPath) : List String → Except Err Conn × List Op
  | [] => (.ok c, [])
  | n :: ns =>
      match recur c (src ++ [n]) (dst ++ [n]) with
      | (.error e, tr) => (.error e, tr)
      | (.ok (c2, _), tr) =>
          match copyChildren recur c2 src dst ns with
          | (r, tr2) => (r, tr ++ tr2)

/-- `ftp_copy_recursive(session_id, source_path, destination_path)`: if
the source is a directory, create the destination (tolerating a `550`
permanent error from `MKD`), list the source with `MLSD` and recurse
into every entry other than `.` and `..`, mapping `source/name` to
`destination/name`; otherwise relay the file through memory with `RETR`
then `STOR`. -/
def ftp_copy_recursive : Nat → Conn → RPath → RPath → Except Err (Conn × String) × List Op
  | 0, _, _, _ => (.error (.toolError "recursion limit exceeded"), [])
  | fuel + 1, c, source_path, destination_path =>
      match noopOp c with
      | .error e => (.error e, [])
      | .ok _ =>
          match _is_dir c source_path with
          | (true, c1) =>
              match (match mkdOp c1 destination_path with
                     | .ok c2 => .ok c2
                     | .error e => copyMkdHandler c1 source_path e :
                       Except Err Conn) with
              | .error e => (.error (wrapCopy source_path e), [Op.mkd destination_path])
              | .ok c2 =>
                  match mlsdOp c2 source_path with
                  | .error e => (.error (wrapCopy source_path e), [Op.mkd destination_path])
                  | .ok listing =>
                      match copyChildren (ftp_copy_recursive fuel) c2 source_path destination_path
                          ((listing.map Prod.fst).filter (fun n => n != "." && n != "..")) with
                      | (.error e, tr) =>
                          (.error (wrapCopy source_path e), Op.mkd destination_path :: tr)
                      | (.ok c3, tr) =>
                          (.ok (c3, "Successfully copied '" ++ pathStr source_path ++ "' to '" ++
                            pathStr destination_path ++ "'."), Op.mkd destination_path :: tr)
          | (false, c1) =>
              match retrOp c1 source_path with
              | .error e => (.error (wrapCopy source_path e), [Op.retr source_path])
              | .ok content =>
                  match storOp c1 destination_path content with
                  | .error e => (.error (wrapCopy source_path e),
                      [Op.retr source_path, Op.stor destination_path])
                  | .ok c2 =>
                      (.ok (c2, "Successfully copied '" ++ pathStr source_path ++ "' to '" ++
                        pathStr destination_path ++ "'."),
                        [Op.retr source_path, Op.stor destination_path])

/-! # Theorems

First a few facts about the registry, then one theorem per claim. -/

theorem lookupReg_eraseReg_self (reg : Registry) (sid : String) :
    lookupReg (eraseReg reg sid) sid = none := by
  induction reg with
  | nil => rfl
  | cons e rest ih =>
      obtain ⟨sid2, c2⟩ := e
      by_cases h : sid2 = sid
      · simpa [eraseReg, h] using ih
      · simp [eraseReg, h, lookupReg, ih]

theorem lookupReg_insertReg_self (reg : Registry) (sid : String) (c : Conn) :
    lookupReg (insertReg reg sid c) sid = some c := by
  simp [insertReg, lookupReg]

theorem notFoundMsg_ne_timeoutMsg (sid : String) : notFoundMsg sid ≠ timeoutMsg sid := by
  intro h
  have h2 := congrArg String.length h
  simp only [notFoundMsg, timeoutMsg, String.length_append] at h2
  have hx : ("' not found. Please connect first." : String).length = 34 := rfl
  have hy : ("' timed out or was disconnected. Please reconnect." : String).length = 50 := rfl
  omega

/-- **C1.**  If a session identifier is present in the registry but its
liveness probe fails, `_check_session` removes the entry and surfaces
the timed-out failure, and a second resolution with the same identifier
reports the session as not found (a distinct message), not the
dead-connection error again. -/
theorem check_session_evicts_dead_session (reg : Registry) (sid : String) (c : Conn)
    (hlook : lookupReg reg sid = some c) (hdead : c.alive = false) :
    (_check_session reg sid).1 = .error (.toolError (timeoutMsg sid)) ∧
    (_check_session reg sid).2 = eraseReg reg sid ∧
    lookupReg (_check_session reg sid).2 sid = none ∧
    (_check_session (_check_session reg sid).2 sid).1 = .error (.toolError (notFoundMsg sid)) ∧
    notFoundMsg sid ≠ timeoutMsg sid := by
  have hstep : _check_session reg sid =
      (.error (.toolError (timeoutMsg sid)), eraseReg reg sid) := by
    simp [_check_session, hlook, noopOp, hdead]
  refine ⟨by rw [hstep], by rw [hstep], ?_, ?_, notFoundMsg_ne_timeoutMsg sid⟩
  · rw [hstep]
    exact lookupReg_eraseReg_self reg sid
  · rw [hstep]
    simp [_check_session, lookupReg_eraseReg_self]

/-- Witness for C1 at a concrete registry holding a dead connection. -/
def deadDemoConn : Conn :=
  { alive := false, mode := .ascii, cwd := [], fs := .dir [], welcome := "", stouAck := "" }

theorem check_session_evicts_dead_session_witness :
    (_check_session [("s1", deadDemoConn)] "s1").1 = .error (.toolError (timeoutMsg "s1")) ∧
    (_check_session [("s1", deadDemoConn)] "s1").2 = eraseReg [("s1", deadDemoConn)] "s1" ∧
    lookupReg (_check_session [("s1", deadDemoConn)] "s1").2 "s1" = none ∧
    (_check_session (_check_session [("s1", deadDemoConn)] "s1").2 "s1").1 =
      .error (.toolError (notFoundMsg "s1")) ∧
    notFoundMsg "s1" ≠ timeoutMsg "s1" :=
  check_session_evicts_dead_session [("s1", deadDemoConn)] "s1" deadDemoConn rfl rfl

/-- **C5.**  `ftp_disconnect` on an identifier absent from the registry
returns success and leaves the registry unchanged; and after any
successful disconnect, disconnecting the same identifier again still
succeeds. -/
theorem ftp_disconnect_unknown_is_success (reg : Registry) (sid : String) :
    (lookupReg reg sid = none →
       ftp_disconnect reg sid =
         (.ok ("Session with ID '" ++ sid ++ "' was not found or already disconnected."), reg)) ∧
    ((ftp_disconnect reg sid).1.isOk = true →
       (ftp_disconnect (ftp_disconnect reg sid).2 sid).1.isOk = true) := by
  constructor
  · intro h
    simp [ftp_disconnect, h]
  · intro h
    rcases hl : lookupReg reg sid with _ | c
    · simp [ftp_disconnect, hl, Except.isOk, Except.toBool]
    · rcases hq : quitOp c with e | u
      · exfalso
        simp [ftp_disconnect, hl, hq, Except.isOk, Except.toBool] at h
      · have hstep : ftp_disconnect reg sid =
            (.ok ("Session '" ++ sid ++ "' disconnected successfully."), eraseReg reg sid) := by
          simp [ftp_disconnect, hl, hq]
        rw [hstep]
        simp [ftp_disconnect, lookupReg_eraseReg_self, Except.isOk, Except.toBool]

theorem ftp_disconnect_unknown_is_success_witness :
    ftp_disconnect ([] : Registry) "s1" =
      (.ok ("Session with ID '" ++ "s1" ++ "' was not found or already disconnected."), []) ∧
    (ftp_disconnect (ftp_disconnect ([] : Registry) "s1").2 "s1").1.isOk = true := by
  refine ⟨(ftp_disconnect_unknown_is_success [] "s1").1 rfl, ?_⟩
  exact (ftp_disconnect_unknown_is_success [] "s1").2 rfl

/-- **C8.**  A successful `connect` yields an identifier for which an
immediate `resolve` succeeds with the stored connection; after a
`disconnect` of that identifier, `resolve` fails with the
session-not-found error. -/
theorem connect_resolve_disconnect_lifecycle (reg : Registry) (sid : String) (c : Conn)
    (halive : c.alive = true) :
    (ftp_connect reg sid (.ok c)).1.isOk = true ∧
    (_check_session (ftp_connect reg sid (.ok c)).2 sid).1 = .ok c ∧
    (ftp_disconnect (ftp_connect reg sid (.ok c)).2 sid).1.isOk = true ∧
    (_check_session (ftp_disconnect (ftp_connect reg sid (.ok c)).2 sid).2 sid).1 =
      .error (.toolError (notFoundMsg sid)) := by
  have hreg : (ftp_connect reg sid (.ok c)).2 = (sid, c) :: eraseReg reg sid := rfl
  refine ⟨rfl, ?_, ?_, ?_⟩
  · rw [hreg]
    simp [_check_session, lookupReg, noopOp, halive]
  · rw [hreg]
    simp [ftp_disconnect, lookupReg, quitOp, halive, Except.isOk, Except.toBool]
  · rw [hreg]
    have hdisc : ftp_disconnect ((sid, c) :: eraseReg reg sid) sid =
        (.ok ("Session '" ++ sid ++ "' disconnected successfully."),
          eraseReg ((sid, c) :: eraseReg reg sid) sid) := by
      simp [ftp_disconnect, lookupReg, quitOp, halive]
    rw [hdisc]
    simp [_check_session, lookupReg_eraseReg_self]

theorem connect_resolve_disconnect_lifecycle_witness :
    (ftp_connect [] "s1" (.ok { deadDemoConn with alive := true })).1.isOk = true ∧
    (_check_session (ftp_connect [] "s1" (.ok { deadDemoConn with alive := true })).2 "s1").1 =
      .ok { deadDemoConn with alive := true } ∧
    (ftp_disconnect (ftp_connect [] "s1"
      (.ok { deadDemoConn with alive := true })).2 "s1").1.isOk = true ∧
    (_check_session (ftp_disconnect (ftp_connect [] "s1"
      (.ok { deadDemoConn with alive := true })).2 "s1").2 "s1").1 =
      .error (.toolError (notFoundMsg "s1")) :=
  connect_resolve_disconnect_lifecycle [] "s1" { deadDemoConn with alive := true } rfl

/-- **C9.**  A failed `connect` surfaces a `ToolError` wrapping the
cause and leaves the registry unchanged: no entry is created for the
generated identifier. -/
theorem ftp_connect_failure_leaves_registry (reg : Registry) (sid msg : String) :
    ftp_connect reg sid (.error msg) =
      (.error (.toolError ("Failed to connect to FTP server: " ++ msg)), reg) ∧
    lookupReg (ftp_connect reg sid (.error msg)).2 sid = lookupReg reg sid :=
  ⟨rfl, rfl⟩

/-! ## Inversion facts for the primitives -/

theorem noopOp_ok_alive {c : Conn} {u : Unit} (h : noopOp c = .ok u) : c.alive = true := by
  unfold noopOp at h
  split at h
  · assumption
  · cases h

theorem pwdOp_ok {c : Conn} {p : RPath} (h : pwdOp c = .ok p) : p = c.cwd := by
  unfold pwdOp at h
  split at h
  · cases h
    rfl
  · cases h

theorem cwdOp_ok {c c2 : Conn} {p : RPath} (h : cwdOp c p = .ok c2) :
    c2 = { c with cwd := p } ∧ c.alive = true ∧ isDirAt c.fs p = true := by
  unfold cwdOp at h
  split at h
  · split at h
    · cases h
      exact ⟨rfl, by assumption, by assumption⟩
    · cases h
  · cases h

/-- **C2, counterexample.**  A live connection in ASCII mode queried for
the size of a missing file: the query fails and the transfer mode is
left binary, not the prior ASCII — the mode is *not* restored on
failure. -/
def sizeDemoConn : Conn :=
  { alive := true, mode := .ascii, cwd := [], fs := .dir [("g", .file "q")],
    welcome := "", stouAck := "" }

theorem ftp_get_file_size_mode_not_restored :
    (ftp_get_file_size sizeDemoConn ["nope"]).1 =
      .error (.toolError ("Failed to recieve file size: " ++ "550 nope: No such file.")) ∧
    (ftp_get_file_size sizeDemoConn ["nope"]).2.mode ≠ sizeDemoConn.mode := by
  exact ⟨rfl, by decide⟩

/-- **C2, amended.**  On a live session the size query leaves the
transfer mode ASCII whenever it succeeds — regardless of the prior
mode — and leaves it binary whenever it fails: the source forces ASCII,
switches to binary for `SIZE`, and sets ASCII again only on success. -/
theorem ftp_get_file_size_mode_discipline (c : Conn) (p : RPath) (halive : c.alive = true) :
    ((ftp_get_file_size c p).1.isOk = true → (ftp_get_file_size c p).2.mode = .ascii) ∧
    (∀ e, (ftp_get_file_size c p).1 = .error e → (ftp_get_file_size c p).2.mode = .binary) := by
  obtain ⟨al, mo, cw, fs0, we, st⟩ := c
  replace halive : al = true := halive
  subst halive
  rcases hs : sizeOp ⟨true, TransferMode.binary, cw, fs0, we, st⟩ p with e | n
  · constructor
    · intro h
      exfalso
      simp [ftp_get_file_size, noopOp, typeOp, hs, Except.isOk, Except.toBool] at h
    · intro e2 _
      simp [ftp_get_file_size, noopOp, typeOp, hs]
  · constructor
    · intro _
      simp [ftp_get_file_size, noopOp, typeOp, hs]
    · intro e2 h
      exfalso
      simp [ftp_get_file_size, noopOp, typeOp, hs] at h

theorem ftp_get_file_size_mode_discipline_witness :
    (ftp_get_file_size sizeDemoConn ["g"]).2.mode = .ascii ∧
    (ftp_get_file_size sizeDemoConn ["nope"]).2.mode = .binary := by
  constructor
  · exact (ftp_get_file_size_mode_discipline sizeDemoConn ["g"] rfl).1 rfl
  · exact (ftp_get_file_size_mode_discipline sizeDemoConn ["nope"] rfl).2
      (.toolError ("Failed to recieve file size: " ++ "550 nope: No such file.")) rfl

/-- **C6, counterexample.**  A live connection whose recorded working
directory no longer exists on the server: `_is_dir` on a genuine
directory changes into it successfully, then fails to change back, so
it returns `False` even though the change succeeded, and it leaves the
working directory at the probed path. -/
def cwdDemoConn : Conn :=
  { alive := true, mode := .ascii, cwd := ["gone"], fs := .dir [("a", .dir [])],
    welcome := "", stouAck := "" }

theorem is_dir_not_restored_counterexample :
    cwdOp cwdDemoConn ["a"] = .ok { cwdDemoConn with cwd := ["a"] } ∧
    (_is_dir cwdDemoConn ["a"]).1 = false ∧
    (_is_dir cwdDemoConn ["a"]).2.cwd ≠ cwdDemoConn.cwd := by
  exact ⟨rfl, rfl, by decide⟩

/-- **C6, amended.**  Provided the connection's recorded working
directory still resolves to a directory, `_is_dir` returns `true`
exactly when changing into the probed path succeeds, and it returns the
connection completely unchanged (in particular the working directory is
restored); without that proviso a successful change into the path
cannot be undone and the working directory is left at the probed path
(see the counterexample). -/
theorem is_dir_observably_pure (c : Conn) (p : RPath)
    (hwf : isDirAt c.fs c.cwd = true) :
    _is_dir c p = (c.alive && isDirAt c.fs p, c) := by
  obtain ⟨al, mo, cw, fs0, we, st⟩ := c
  replace hwf : isDirAt fs0 cw = true := hwf
  cases al
  · simp [_is_dir, pwdOp]
  · by_cases hd : isDirAt fs0 p = true
    · simp [_is_dir, pwdOp, cwdOp, hd, hwf]
    · simp [_is_dir, pwdOp, cwdOp, hd]

theorem is_dir_observably_pure_witness :
    _is_dir sizeDemoConn ["g"] =
      (sizeDemoConn.alive && isDirAt sizeDemoConn.fs ["g"], sizeDemoConn) :=
  is_dir_observably_pure sizeDemoConn ["g"] rfl

/-- **C10.**  Every listing operation (`NLST`, `LIST` and `MLSD` alike)
that returns successfully leaves the connection — in particular its
current working directory — exactly as it was before the call: it
records the working directory, changes into the requested directory,
lists it, and changes back before returning. -/
theorem list_by_method_restores_cwd (m : ListMethod) (c : Conn) (d : RPath)
    (out : ListingResult) (hok : (_ftp_list_by_method m c d).1 = .ok out) :
    (_ftp_list_by_method m c d).2.cwd = c.cwd ∧ (_ftp_list_by_method m c d).2 = c := by
  suffices h : (_ftp_list_by_method m c d).2 = c by
    exact ⟨by rw [h], h⟩
  rcases hn : noopOp c with e | u
  · simp [_ftp_list_by_method, hn] at hok
  · rcases hp : pwdOp c with e | original
    · simp [_ftp_list_by_method, hn, hp] at hok
    · rcases hc1 : cwdOp c d with e | c1
      · simp [_ftp_list_by_method, hn, hp, hc1] at hok
      · rcases hlist : (match m with
            | ListMethod.nlst => (nlstOp c1).map ListingResult.names
            | ListMethod.list => (listOp c1).map ListingResult.lines
            | ListMethod.mlsd => (mlsdOp c1 c1.cwd).map ListingResult.entries) with e | files
        · simp [_ftp_list_by_method, hn, hp, hc1, hlist] at hok
        · rcases hc2 : cwdOp c1 original with e | c2
          · simp [_ftp_list_by_method, hn, hp, hc1, hlist, hc2] at hok
          · have hfin : (_ftp_list_by_method m c d).2 = c2 := by
              simp [_ftp_list_by_method, hn, hp, hc1, hlist, hc2]
            rw [hfin]
            obtain ⟨h2, -, -⟩ := cwdOp_ok hc2
            obtain ⟨h1, -, -⟩ := cwdOp_ok hc1
            have horig := pwdOp_ok hp
            subst h2 h1 horig
            rfl

theorem list_by_method_restores_cwd_witness :
    (_ftp_list_by_method .nlst sizeDemoConn []).2.cwd = sizeDemoConn.cwd ∧
    (_ftp_list_by_method .nlst sizeDemoConn []).2 = sizeDemoConn :=
  list_by_method_restores_cwd .nlst sizeDemoConn [] (.names ["g"]) rfl

/-! ## C7: the unique-store acknowledgement contract -/

/-- The specification's notion of "the acknowledgement contains the
`FILE: <name>` marker": somewhere in the text the literal `"FILE: "`
occurs followed by at least one character of a name (the pattern's
`(.+)` cannot match a newline or nothing). -/
def MarkerPresent (s : String) : Prop :=
  ∃ pre ch post, s.data = pre ++ "FILE: ".data ++ ch :: post ∧ ch ≠ '\n'

/-- If the leftmost-match condition fails at the head position, a
decomposition of the whole list is exactly a decomposition of its
tail. -/
theorem stou_dec_cons_iff (ch0 : Char) (rest : List Char)
    (hnot : ¬ ("FILE: ".data.isPrefixOf (ch0 :: rest) = true ∧
        ∃ c2 tl, rest.drop 5 = c2 :: tl ∧ c2 ≠ '\n')) :
    (∃ pre ch post, ch0 :: rest = pre ++ "FILE: ".data ++ ch :: post ∧ ch ≠ '\n') ↔
      (∃ pre ch post, rest = pre ++ "FILE: ".data ++ ch :: post ∧ ch ≠ '\n') := by
  constructor
  · rintro ⟨pre, ch, post, h, hne⟩
    rcases pre with _ | ⟨p0, pre2⟩
    · exfalso
      apply hnot
      simp only [List.nil_append] at h
      constructor
      · exact List.isPrefixOf_iff_prefix.mpr ⟨ch :: post, h.symm⟩
      · refine ⟨ch, post, ?_, hne⟩
        simp only [List.cons_append, List.nil_append] at h
        obtain ⟨-, h1⟩ := List.cons.inj h
        subst h1
        rfl
    · simp only [List.cons_append] at h
      obtain ⟨-, h1⟩ := List.cons.inj h
      exact ⟨pre2, ch, post, h1, hne⟩
  · rintro ⟨pre, ch, post, h, hne⟩
    exact ⟨ch0 :: pre, ch, post, by simp [h], hne⟩

/-- The code's regex search succeeds exactly when the marker (with a
nonempty same-line name after it) occurs in the text. -/
theorem stouFind_isSome_iff (l : List Char) :
    (stouFind l).isSome = true ↔
      ∃ pre ch post, l = pre ++ "FILE: ".data ++ ch :: post ∧ ch ≠ '\n' := by
  induction l with
  | nil =>
      constructor
      · intro h
        simp [stouFind] at h
      · rintro ⟨pre, ch, post, h, -⟩
        have hlen := congrArg List.length h
        simp only [List.length_append, List.length_cons, List.length_nil] at hlen
        have hm : ("FILE: ".data).length = 6 := rfl
        omega
  | cons ch0 rest ih =>
      rcases hd : rest.drop 5 with _ | ⟨c2, tl⟩
      · have heq : stouFind (ch0 :: rest) = stouFind rest := by
          simp [stouFind, hd]
        rw [heq, ih]
        refine (stou_dec_cons_iff ch0 rest ?_).symm
        rintro ⟨-, c2, tl, hc, -⟩
        rw [hd] at hc
        cases hc
      · by_cases hnl : c2 = '\n'
        · subst hnl
          have heq : stouFind (ch0 :: rest) = stouFind rest := by
            simp [stouFind, hd]
          rw [heq, ih]
          refine (stou_dec_cons_iff ch0 rest ?_).symm
          rintro ⟨-, c2x, tlx, hc, hne⟩
          rw [hd] at hc
          obtain ⟨hc1, -⟩ := List.cons.inj hc
          exact hne hc1.symm
        · by_cases hpre : "FILE: ".data.isPrefixOf (ch0 :: rest) = true
          · have hsome : (stouFind (ch0 :: rest)).isSome = true := by
              simp [stouFind, hd, hpre, hnl]
            simp only [hsome, true_iff]
            obtain ⟨t, ht⟩ := List.isPrefixOf_iff_prefix.mp hpre
            simp only [List.cons_append, List.nil_append] at ht
            obtain ⟨h0, h1⟩ := List.cons.inj ht
            subst h0
            subst h1
            have hdt : t = c2 :: tl := hd
            subst hdt
            exact ⟨[], c2, tl, rfl, hnl⟩
          · have heq : stouFind (ch0 :: rest) = stouFind rest := by
              simp [stouFind, hpre]
            rw [heq, ih]
            refine (stou_dec_cons_iff ch0 rest ?_).symm
            rintro ⟨hp, -⟩
            exact hpre hp

theorem stouExtract_isSome_iff (s : String) :
    (stouExtract s).isSome = true ↔ MarkerPresent s := by
  unfold stouExtract MarkerPresent
  rw [Option.isSome_map']
  exact stouFind_isSome_iff s.data

/-- A store failure message never coincides with the parse failure
message (their first characters after the shared prefix differ). -/
theorem upload_parse_msg_ne (p : RPath) (ack : String) :
    ("Error uploading file: " ++ ("550 " ++ pathStr p ++ ": Cannot store.")) ≠
      ("Error uploading file: " ++ "Failed to parse unique filename from STOU response: " ++ ack) := by
  intro h
  have hd := congrArg String.data h
  simp only [String.data_append, List.append_assoc] at hd
  have hc := List.append_cancel_left hd
  simp only [List.cons_append] at hc
  obtain ⟨h1, -⟩ := List.cons.inj hc
  exact absurd h1 (by decide)

theorem storOp_error_msg {c : Conn} {p : RPath} {content : String} {e : Err}
    (halive : c.alive = true) (h : storOp c p content = .error e) :
    e = .permError ("550 " ++ pathStr p ++ ": Cannot store.") := by
  unfold storOp at h
  rw [halive] at h
  simp only [if_true] at h
  split at h
  · cases h
  · exact (Except.error.inj h).symm

/-- **C7.**  The unique store extracts the assigned name from the
`FILE: <name>` pattern of the acknowledgement: the extraction succeeds
exactly when the acknowledgement contains the marker followed by a
(nonempty, same-line) name; the operation fails with the
parse-of-STOU-response error exactly when it does not; and a successful
operation reports the extracted name. -/
theorem store_unique_marker_contract (c : Conn) (lf : LocalFile) (content : String)
    (halive : c.alive = true) (hcontent : lf.content = some content) :
    ((stouExtract c.stouAck).isSome = true ↔ MarkerPresent c.stouAck) ∧
    ((ftp_store_file_unique c lf).1 =
        .error (.toolError ("Error uploading file: " ++
          "Failed to parse unique filename from STOU response: " ++ c.stouAck))
      ↔ ¬ MarkerPresent c.stouAck) ∧
    (∀ name r, stouExtract c.stouAck = some name →
        (ftp_store_file_unique c lf).1 = .ok r →
        r = "File uploaded successfully with unique name: " ++ name) := by
  refine ⟨stouExtract_isSome_iff c.stouAck, ?_, ?_⟩
  · rcases hx : stouExtract c.stouAck with _ | name
    · have hmark : ¬ MarkerPresent c.stouAck := by
        rw [← stouExtract_isSome_iff, hx]
        simp
      have hres : (ftp_store_file_unique c lf).1 =
          .error (.toolError ("Error uploading file: " ++
            "Failed to parse unique filename from STOU response: " ++ c.stouAck)) := by
        simp [ftp_store_file_unique, _ftp_store_methods_helper, noopOp, halive, hcontent, hx]
      simp [hres, hmark]
    · have hmark : MarkerPresent c.stouAck := by
        rw [← stouExtract_isSome_iff, hx]
        rfl
      simp only [hmark, not_true, iff_false]
      rcases hst : storOp c (c.cwd ++ [name]) content with e | c2
      · have hres : (ftp_store_file_unique c lf).1 =
            .error (.toolError ("Error uploading file: " ++ e.msg)) := by
          simp [ftp_store_file_unique, _ftp_store_methods_helper, noopOp, halive, hcontent, hx, hst]
        rw [hres]
        intro hcontra
        have hmsg := Err.toolError.inj (Except.error.inj hcontra)
        rw [storOp_error_msg halive hst] at hmsg
        exact upload_parse_msg_ne (c.cwd ++ [name]) c.stouAck hmsg
      · have hres : (ftp_store_file_unique c lf).1 =
            .ok ("File uploaded successfully with unique name: " ++ name) := by
          simp [ftp_store_file_unique, _ftp_store_methods_helper, noopOp, halive, hcontent, hx, hst]
        rw [hres]
        intro hcontra
        cases hcontra
  · intro name r hx hr
    rcases hst : storOp c (c.cwd ++ [name]) content with e | c2
    · have hres : (ftp_store_file_unique c lf).1 =
          .error (.toolError ("Error uploading file: " ++ e.msg)) := by
        simp [ftp_store_file_unique, _ftp_store_methods_helper, noopOp, halive, hcontent, hx, hst]
      rw [hres] at hr
      cases hr
    · have hres : (ftp_store_file_unique c lf).1 =
          .ok ("File uploaded successfully with unique name: " ++ name) := by
        simp [ftp_store_file_unique, _ftp_store_methods_helper, noopOp, halive, hcontent, hx, hst]
      rw [hres] at hr
      exact (Except.ok.inj hr).symm

/-- Witness for C7 at a concrete connection whose acknowledgement is
`150 FILE: upload.1.txt`. -/
def stouDemoConn : Conn :=
  { alive := true, mode := .ascii, cwd := [], fs := .dir [], welcome := "",
    stouAck := "150 FILE: upload.1.txt" }

theorem store_unique_marker_contract_witness :
    ((stouExtract stouDemoConn.stouAck).isSome = true ↔ MarkerPresent stouDemoConn.stouAck) ∧
    ((ftp_store_file_unique stouDemoConn { path := "up.txt", content := some "body" }).1 =
        .error (.toolError ("Error uploading file: " ++
          "Failed to parse unique filename from STOU response: " ++ stouDemoConn.stouAck))
      ↔ ¬ MarkerPresent stouDemoConn.stouAck) ∧
    (∀ name r, stouExtract stouDemoConn.stouAck = some name →
        (ftp_store_file_unique stouDemoConn { path := "up.txt", content := some "body" }).1 =
          .ok r →
        r = "File uploaded successfully with unique name: " ++ name) :=
  store_unique_marker_contract stouDemoConn { path := "up.txt", content := some "body" } "body"
    rfl rfl

/-! ## C3: destination-creation failures during recursive copy -/

/-- **C3, counterexample.**  Copying the (empty) directory `a` to
`x/b` where no directory `x` exists: `MKD x/b` fails with a `550`
permanent error that is *not* of the already-exists class (the
destination does not resolve at all — the parent is missing), yet the
copy swallows the failure and reports overall success, with the
destination never created. -/
def copyDemoConn : Conn :=
  { alive := true, mode := .ascii, cwd := [], fs := .dir [("a", .dir [])],
    welcome := "", stouAck := "" }

theorem copy_swallows_non_exists_550 :
    mkdOp copyDemoConn ["x", "b"] =
      .error (.permError ("550 " ++ "x/b" ++ ": No such file or directory.")) ∧
    resolve copyDemoConn.fs ["x", "b"] = none ∧
    strContains ("550 " ++ "x/b" ++ ": No such file or directory.") "550" = true ∧
    (ftp_copy_recursive 3 copyDemoConn ["a"] ["x", "b"]).1 =
      .ok (copyDemoConn, "Successfully copied 'a' to 'x/b'.") :=
  ⟨by rfl, rfl, by decide, by rfl⟩

/-- **C3, amended.**  During recursive copy of a directory, a
destination-creation failure is treated as non-fatal exactly when it is
an `error_perm` whose message contains `"550"` — the code's proxy for
"already exists", a class that also covers other `550` replies such as
a missing destination parent; any creation failure outside that class
aborts the copy and propagates as an error. -/
theorem copy_mkd_tolerance (c : Conn) (src : RPath) :
    (∀ e : Err, (copyMkdHandler c src e).isOk = (e.isPerm && strContains e.msg "550")) ∧
    (∀ fuel dst, c.alive = true → (_is_dir c src).1 = true →
      ∀ e, mkdOp (_is_dir c src).2 dst = .error e →
        (∀ e2, copyMkdHandler (_is_dir c src).2 src e = .error e2 →
          ftp_copy_recursive (fuel + 1) c src dst =
            (.error (wrapCopy src e2), [Op.mkd dst])) ∧
        (∀ c2, copyMkdHandler (_is_dir c src).2 src e = .ok c2 →
          ftp_copy_recursive (fuel + 1) c src dst =
            (match mlsdOp c2 src with
             | .error e2 => (.error (wrapCopy src e2), [Op.mkd dst])
             | .ok listing =>
                 match copyChildren (ftp_copy_recursive fuel) c2 src dst
                     ((listing.map Prod.fst).filter (fun n => n != "." && n != "..")) with
                 | (.error e2, tr) => (.error (wrapCopy src e2), Op.mkd dst :: tr)
                 | (.ok c3, tr) =>
                     (.ok (c3, "Successfully copied '" ++ pathStr src ++ "' to '" ++
                       pathStr dst ++ "'."), Op.mkd dst :: tr)))) := by
  constructor
  · intro e
    rcases e with m | m | m
    · simp [copyMkdHandler, Err.isPerm, Except.isOk, Except.toBool]
    · by_cases h5 : strContains m "550" = true
      · simp [copyMkdHandler, Err.isPerm, Err.msg, h5, Except.isOk, Except.toBool]
      · simp [copyMkdHandler, Err.isPerm, Err.msg, h5, Except.isOk, Except.toBool]
    · simp [copyMkdHandler, Err.isPerm, Except.isOk, Except.toBool]
  · intro fuel dst halive hdir e hmkd
    rcases hid : _is_dir c src with ⟨b, c1⟩
    rw [hid] at hdir hmkd
    replace hdir : b = true := hdir
    subst hdir
    replace hmkd : mkdOp c1 dst = .error e := hmkd
    constructor
    · intro e2 hh
      replace hh : copyMkdHandler c1 src e = .error e2 := hh
      simp [ftp_copy_recursive, noopOp, halive, hid, hmkd, hh]
    · intro c2 hh
      replace hh : copyMkdHandler c1 src e = .ok c2 := hh
      simp [ftp_copy_recursive, noopOp, halive, hid, hmkd, hh]

theorem copy_mkd_tolerance_witness :
    ftp_copy_recursive 3 copyDemoConn ["a"] ["x", "b"] =
      (match mlsdOp (_is_dir copyDemoConn ["a"]).2 ["a"] with
       | .error e2 => (.error (wrapCopy ["a"] e2), [Op.mkd ["x", "b"]])
       | .ok listing =>
           match copyChildren (ftp_copy_recursive 2) (_is_dir copyDemoConn ["a"]).2 ["a"] ["x", "b"]
               ((listing.map Prod.fst).filter (fun n => n != "." && n != "..")) with
           | (.error e2, tr) => (.error (wrapCopy ["a"] e2), Op.mkd ["x", "b"] :: tr)
           | (.ok c3, tr) =>
               (.ok (c3, "Successfully copied '" ++ pathStr ["a"] ++ "' to '" ++
                 pathStr ["x", "b"] ++ "'."), Op.mkd ["x", "b"] :: tr)) :=
  ((copy_mkd_tolerance copyDemoConn ["a"]).2 2 ["x", "b"] rfl rfl
      (.permError ("550 " ++ "x/b" ++ ": No such file or directory.")) rfl).2
    (_is_dir copyDemoConn ["a"]).2 rfl

/-! ## C4: recursive delete is depth-first -/

/-- Every operation emitted by the children loop lies under one of the
listed child paths, provided the recursive call only emits operations
under its own path. -/
theorem deleteChildren_ops
    (recur : Conn → RPath → Except Err (Conn × String) × List Op) (q : RPath)
    (hcore : ∀ c n op, op ∈ (recur c (q ++ [n])).2 → (q ++ [n]) <+: op.path) :
    ∀ ns c op, op ∈ (deleteChildren recur c q ns).2 → ∃ n ∈ ns, (q ++ [n]) <+: op.path := by
  intro ns
  induction ns with
  | nil =>
      intro c op hop
      simp [deleteChildren] at hop
  | cons n ns ih =>
      intro c op hop
      simp only [deleteChildren] at hop
      rcases hrec : recur c (q ++ [n]) with ⟨res, tr⟩
      rcases res with e | ⟨c2, m⟩
      · rw [hrec] at hop
        simp at hop
        exact ⟨n, List.mem_cons_self n ns, hcore c n op (by rw [hrec]; exact hop)⟩
      · rcases hrest : deleteChildren recur c2 q ns with ⟨r2, tr2⟩
        rw [hrec] at hop
        simp [hrest] at hop
        rcases hop with h1 | h2
        · exact ⟨n, List.mem_cons_self n ns, hcore c n op (by rw [hrec]; exact h1)⟩
        · obtain ⟨n2, hn2, hpre⟩ := ih c2 op (by rw [hrest]; exact h2)
          exact ⟨n2, List.mem_cons_of_mem n hn2, hpre⟩

/-- Every operation in the trace of a recursive delete lies under the
path being deleted. -/
theorem ftp_delete_recursive_ops :
    ∀ fuel c q op, op ∈ (ftp_delete_recursive fuel c q).2 → q <+: op.path := by
  intro fuel
  induction fuel with
  | zero =>
      intro c q op hop
      simp [ftp_delete_recursive] at hop
  | succ fuel ih =>
      intro c q op hop
      simp only [ftp_delete_recursive] at hop
      rcases hn : noopOp c with e | u
      · rw [hn] at hop
        simp at hop
      · rw [hn] at hop
        rcases hid : _is_dir c q with ⟨b, c1⟩
        rw [hid] at hop
        cases b
        · rcases hdel : deleteOp c1 q with e | c2 <;>
          · simp [hdel] at hop
            subst hop
            exact List.prefix_refl q
        · rcases hml : mlsdOp c1 q with e | listing
          · simp [hml] at hop
          · rcases hch : deleteChildren (ftp_delete_recursive fuel) c1 q
                ((listing.map Prod.fst).filter (fun n => n != "." && n != "..")) with ⟨r, tr⟩
            have htr : ∀ op2, op2 ∈ tr → q <+: op2.path := by
              intro op2 hop2
              obtain ⟨n, -, hpre⟩ :=
                deleteChildren_ops (ftp_delete_recursive fuel) q
                  (fun c n op2 h => ih c (q ++ [n]) op2 h)
                  ((listing.map Prod.fst).filter (fun n => n != "." && n != "..")) c1 op2
                  (by rw [hch]; exact hop2)
              exact (List.prefix_append q [n]).trans hpre
            rcases r with e | c2
            · simp [hml, hch] at hop
              exact htr op hop
            · rcases hrmd : rmdOp c2 q with e | c3 <;>
              · simp [hml, hch, hrmd] at hop
                rcases hop with h1 | h2
                · exact htr op h1
                · subst h2
                  exact List.prefix_refl q

/-- **C4.**  Recursive delete proceeds depth-first: when the path is
classified as a directory, the listing's `.` and `..` pseudo-entries
are excluded, the children loop recurses on `path ++ [name]` for the
remaining names in order, every operation it emits lies strictly below
the directory (so never on the directory itself), and the `RMD` of the
directory itself is issued exactly once, after the whole children loop;
when the path is not classified as a directory, the trace is exactly
one single `DELE` of the path. -/
theorem ftp_delete_recursive_depth_first (fuel : Nat) (c : Conn) (p : RPath)
    (halive : c.alive = true) :
    ((_is_dir c p).1 = false →
        (ftp_delete_recursive (fuel + 1) c p).2 = [Op.dele p]) ∧
    ((_is_dir c p).1 = true →
      ∀ listing, mlsdOp (_is_dir c p).2 p = .ok listing →
        (∀ n ∈ (listing.map Prod.fst).filter (fun n => n != "." && n != ".."),
            n ≠ "." ∧ n ≠ "..") ∧
        (∀ r tr,
          deleteChildren (ftp_delete_recursive fuel) (_is_dir c p).2 p
              ((listing.map Prod.fst).filter (fun n => n != "." && n != "..")) = (r, tr) →
          ((∃ c2, r = .ok c2) →
              (ftp_delete_recursive (fuel + 1) c p).2 = tr ++ [Op.rmd p]) ∧
          (∀ e, r = .error e → (ftp_delete_recursive (fuel + 1) c p).2 = tr) ∧
          (∀ op ∈ tr,
            (∃ n ∈ (listing.map Prod.fst).filter (fun n => n != "." && n != ".."),
              (p ++ [n]) <+: op.path) ∧ op.path ≠ p))) := by
  rcases hid : _is_dir c p with ⟨b, c1⟩
  constructor
  · intro hfalse
    replace hfalse : b = false := hfalse
    subst hfalse
    rcases hdel : deleteOp c1 p with e | c2 <;>
      simp [ftp_delete_recursive, noopOp, halive, hid, hdel]
  · intro htrue listing hml
    replace htrue : b = true := htrue
    subst htrue
    replace hml : mlsdOp c1 p = .ok listing := hml
    constructor
    · intro n hn
      simp only [List.mem_filter, Bool.and_eq_true, bne_iff_ne, ne_eq] at hn
      exact ⟨hn.2.1, hn.2.2⟩
    · intro r tr hch
      replace hch : deleteChildren (ftp_delete_recursive fuel) c1 p
          ((listing.map Prod.fst).filter (fun n => n != "." && n != "..")) = (r, tr) := hch
      refine ⟨?_, ?_, ?_⟩
      · rintro ⟨c2, hr⟩
        subst hr
        rcases hrmd : rmdOp c2 p with e | c3 <;>
          simp [ftp_delete_recursive, noopOp, halive, hid, hml, hch, hrmd]
      · intro e hr
        subst hr
        simp [ftp_delete_recursive, noopOp, halive, hid, hml, hch]
      · intro op hop
        obtain ⟨n, hn, hpre⟩ :=
          deleteChildren_ops (ftp_delete_recursive fuel) p
            (fun c2 n op2 h => ftp_delete_recursive_ops fuel c2 (p ++ [n]) op2 h)
            ((listing.map Prod.fst).filter (fun n => n != "." && n != "..")) c1 op
            (by rw [hch]; exact hop)
        refine ⟨⟨n, hn, hpre⟩, ?_⟩
        intro hcontra
        have hlen := hpre.length_le
        rw [hcontra] at hlen
        simp [List.length_append] at hlen

/-- Witness connection for C4: a tree with a file, and a directory
holding a file and a nested directory with another file. -/
def delDemoConn : Conn :=
  { alive := true, mode := .ascii, cwd := [],
    fs := .dir [("a", .dir [("f1", .file "x"), ("sub", .dir [("f2", .file "yz")])]),
      ("g", .file "q")],
    welcome := "", stouAck := "" }

theorem ftp_delete_recursive_depth_first_witness :
    (ftp_delete_recursive 10 delDemoConn ["g"]).2 = [Op.dele ["g"]] ∧
    (ftp_delete_recursive 10 delDemoConn ["a"]).2 =
      [Op.dele ["a", "f1"], Op.dele ["a", "sub", "f2"], Op.rmd ["a", "sub"]] ++
        [Op.rmd ["a"]] := by
  constructor
  · exact (ftp_delete_recursive_depth_first 9 delDemoConn ["g"] rfl).1 rfl
  · exact (((ftp_delete_recursive_depth_first 9 delDemoConn ["a"] rfl).2 rfl
      [(".", [("type", "cdir")]), ("..", [("type", "pdir")]),
       ("f1", [("type", "file")]), ("sub", [("type", "dir")])] rfl).2
      (.ok { delDemoConn with fs := .dir [("a", .dir []), ("g", .file "q")] })
      [Op.dele ["a", "f1"], Op.dele ["a", "sub", "f2"], Op.rmd ["a", "sub"]] rfl).1
      ⟨{ delDemoConn with fs := .dir [("a", .dir []), ("g", .file "q")] }, rfl⟩
